import Mathlib

/-!
Verification of the discrete-time PID control-loop simulator from the
NNFL workshop notebook (PID-checkpoint.ipynb).  The notebook advances an
open-loop and a PID-controlled closed-loop first-order plant in lockstep:

  for i in range(0, n_samples):
      y_open_loop[i+1] = (1 - (Ts/tau))*y_open_loop[i] + (Ts/tau)*m[i]
      y[i+1]      = (1 - (Ts/tau))*y[i] + (Ts/tau)*m_cont[i]
      e[i+1]      = y_sp[i+1] - y[i+1]
      int_e[i+1]  = int_e[i] + Ts*e[i+1]
      diff_e[i+1] = (e[i+1] - e[i])/Ts
      m_cont[i+1] = Kp*e[i+1] + Ki*int_e[i+1] + Kd*diff_e[i+1]

with m = np.ones(n+1), m_cont = y_open_loop = y = e = int_e = diff_e =
np.zeros(n+1), y_sp = 2*np.ones(n+1).  Arithmetic is modelled over ℚ.
-/

namespace PID

/-- Immutable simulation inputs: sampling period Ts, plant time constant
tau, step count n, gains Kp/Ki/Kd, constant setpoint value r (the source
uses y_sp = 2*np.ones) and constant open-loop forcing input u0 (the
source uses m = np.ones). -/
structure SimulationConfig where
  Ts : ℚ
  tau : ℚ
  n : ℕ
  Kp : ℚ
  Ki : ℚ
  Kd : ℚ
  r : ℚ
  u0 : ℚ

/-- The values at one time index of the six computed trajectories. -/
structure LoopState where
  y_open : ℚ
  y : ℚ
  e : ℚ
  int_e : ℚ
  diff_e : ℚ
  m_cont : ℚ

/-- All trajectories are allocated as zero arrays, so index 0 of each is 0. -/
def initState : LoopState := ⟨0, 0, 0, 0, 0, 0⟩

/-- One iteration of the source's simulation loop, in the source's order.
Here u is the open-loop input read at this step (m[i] in the source) and
rsp is the setpoint read at this step (y_sp[i+1] in the source). -/
def step (c : SimulationConfig) (u rsp : ℚ) (s : LoopState) : LoopState :=
  let yo := (1 - c.Ts / c.tau) * s.y_open + (c.Ts / c.tau) * u
  let yn := (1 - c.Ts / c.tau) * s.y + (c.Ts / c.tau) * s.m_cont
  let en := rsp - yn
  let ien := s.int_e + c.Ts * en
  let den := (en - s.e) / c.Ts
  let mn := c.Kp * en + c.Ki * ien + c.Kd * den
  ⟨yo, yn, en, ien, den, mn⟩

/-- Trajectory values after i loop iterations, parameterised by the input
and setpoint trajectories u and rsp (the source loop reads the arrays
m[i] and y_sp[i+1]). -/
def stateGen (c : SimulationConfig) (u rsp : ℕ → ℚ) : ℕ → LoopState
  | 0 => initState
  | i + 1 => step c (u i) (rsp (i + 1)) (stateGen c u rsp i)

/-- Trajectory values with the source's concrete inputs: the constant
open-loop input u0 (m = np.ones) and the constant setpoint r
(y_sp = 2*np.ones, generalised to value r). -/
def state (c : SimulationConfig) (i : ℕ) : LoopState :=
  stateGen c (fun _ => c.u0) (fun _ => c.r) i

/-- The setpoint trajectory: constant value r at every index
(y_sp = 2*np.ones in the source). -/
def setpoint (c : SimulationConfig) (_i : ℕ) : ℚ := c.r

/-- The six output trajectories plus the time base, as produced by one run. -/
structure SimulationResult where
  y_open : List ℚ
  y : List ℚ
  m : List ℚ
  e : List ℚ
  int_e : List ℚ
  diff_e : List ℚ
  t : List ℚ

/-- The single error kind of the simulator's API. -/
inductive SimError where
  | InvalidConfiguration

/-- Parameter validity: Ts > 0, tau > 0, n ≥ 1. -/
def validConfig (c : SimulationConfig) : Prop :=
  0 < c.Ts ∧ 0 < c.tau ∧ 1 ≤ c.n

instance (c : SimulationConfig) : Decidable (validConfig c) := by
  unfold validConfig; infer_instance

/-- Packaging of the n+1 entries of each trajectory array and the n-point
time base t_i = i*Ts, i = 0..n-1. -/
def mkResult (c : SimulationConfig) : SimulationResult where
  y_open := (List.range (c.n + 1)).map fun i => (state c i).y_open
  y := (List.range (c.n + 1)).map fun i => (state c i).y
  m := (List.range (c.n + 1)).map fun i => (state c i).m_cont
  e := (List.range (c.n + 1)).map fun i => (state c i).e
  int_e := (List.range (c.n + 1)).map fun i => (state c i).int_e
  diff_e := (List.range (c.n + 1)).map fun i => (state c i).diff_e
  t := List.map (fun i : ℕ => (i : ℚ) * c.Ts) (List.range c.n)

/-- Modelled from the spec: the notebook has no function wrapper and no
input validation (its parameters are fixed top-level values), so the
run(config) entry point with its InvalidConfiguration check is taken from
the spec: validation precedes simulation and fails when Ts ≤ 0, tau ≤ 0
or n < 1; the simulation itself is the source's loop (step/state). -/
def run (c : SimulationConfig) : Except SimError SimulationResult :=
  if validConfig c then .ok (mkResult c) else .error .InvalidConfiguration

/-- Concrete configuration used by witnesses: Ts=1, tau=2, n=4,
Kp=5, Ki=5, Kd=1, r=2, u0=1. -/
def cNB : SimulationConfig := ⟨1, 2, 4, 5, 5, 1, 2, 1⟩

/-- Claim C1: for every valid configuration and every step i from 0 to n-1,
the open-loop output satisfies
y_open[i+1] = (1 - Ts/tau)*y_open[i] + (Ts/tau)*u_open[i] with constant
forcing input, and the closed-loop output satisfies
y[i+1] = (1 - Ts/tau)*y[i] + (Ts/tau)*m[i] where m[i] is the controller
output of the previous step. -/
theorem plant_updates (c : SimulationConfig) (h : validConfig c)
    (i : ℕ) (hi : i < c.n) :
    (state c (i + 1)).y_open
        = (1 - c.Ts / c.tau) * (state c i).y_open + (c.Ts / c.tau) * c.u0
      ∧ (state c (i + 1)).y
        = (1 - c.Ts / c.tau) * (state c i).y + (c.Ts / c.tau) * (state c i).m_cont :=
  ⟨rfl, rfl⟩

/-- Witness for C1 at the concrete configuration cNB and step 0. -/
theorem plant_updates_witness :
    validConfig cNB ∧ 0 < cNB.n ∧
      ((state cNB 1).y_open
          = (1 - cNB.Ts / cNB.tau) * (state cNB 0).y_open + (cNB.Ts / cNB.tau) * cNB.u0
        ∧ (state cNB 1).y
          = (1 - cNB.Ts / cNB.tau) * (state cNB 0).y + (cNB.Ts / cNB.tau) * (state cNB 0).m_cont) :=
  ⟨by decide, by decide, plant_updates cNB (by decide) 0 (by decide)⟩

/-- Claim C2: for every valid configuration and every step i from 0 to n-1,
e[i+1] = r[i+1] - y[i+1], int_e[i+1] = int_e[i] + Ts*e[i+1],
diff_e[i+1] = (e[i+1] - e[i])/Ts, and
m[i+1] = Kp*e[i+1] + Ki*int_e[i+1] + Kd*diff_e[i+1]. -/
theorem controller_updates (c : SimulationConfig) (h : validConfig c)
    (i : ℕ) (hi : i < c.n) :
    (state c (i + 1)).e = setpoint c (i + 1) - (state c (i + 1)).y
      ∧ (state c (i + 1)).int_e = (state c i).int_e + c.Ts * (state c (i + 1)).e
      ∧ (state c (i + 1)).diff_e = ((state c (i + 1)).e - (state c i).e) / c.Ts
      ∧ (state c (i + 1)).m_cont
        = c.Kp * (state c (i + 1)).e + c.Ki * (state c (i + 1)).int_e
            + c.Kd * (state c (i + 1)).diff_e :=
  ⟨rfl, rfl, rfl, rfl⟩

/-- Witness for C2 at the concrete configuration cNB and step 0. -/
theorem controller_updates_witness :
    validConfig cNB ∧ 0 < cNB.n ∧
      ((state cNB 1).e = setpoint cNB 1 - (state cNB 1).y
        ∧ (state cNB 1).int_e = (state cNB 0).int_e + cNB.Ts * (state cNB 1).e
        ∧ (state cNB 1).diff_e = ((state cNB 1).e - (state cNB 0).e) / cNB.Ts
        ∧ (state cNB 1).m_cont
          = cNB.Kp * (state cNB 1).e + cNB.Ki * (state cNB 1).int_e
              + cNB.Kd * (state cNB 1).diff_e) :=
  ⟨by decide, by decide, controller_updates cNB (by decide) 0 (by decide)⟩

/-- Claim C3: run fails with InvalidConfiguration exactly when Ts ≤ 0,
tau ≤ 0 or n < 1; changing only the gains never changes whether it fails;
and on a valid configuration it succeeds with the full result (failure is
atomic: the error constructor carries no trajectories). -/
theorem run_validation (c : SimulationConfig) :
    (run c = Except.error SimError.InvalidConfiguration
        ↔ (c.Ts ≤ 0 ∨ c.tau ≤ 0 ∨ c.n < 1))
      ∧ (validConfig c → run c = Except.ok (mkResult c))
      ∧ ∀ kp ki kd,
          (run { c with Kp := kp, Ki := ki, Kd := kd }
              = Except.error SimError.InvalidConfiguration
            ↔ run c = Except.error SimError.InvalidConfiguration) := by
  by_cases hv : validConfig c
  · obtain ⟨h1, h2, h3⟩ := hv
    refine ⟨?_, fun _ => by rw [run, if_pos ⟨h1, h2, h3⟩], fun kp ki kd => ?_⟩
    · rw [run, if_pos ⟨h1, h2, h3⟩]
      constructor
      · intro h; exact Except.noConfusion h
      · rintro (h | h | h)
        · linarith
        · linarith
        · omega
    · have hg : validConfig { c with Kp := kp, Ki := ki, Kd := kd } := ⟨h1, h2, h3⟩
      rw [run, if_pos hg, run, if_pos (show validConfig c from ⟨h1, h2, h3⟩)]
      constructor
      · intro h; exact Except.noConfusion h
      · intro h; exact Except.noConfusion h
  · refine ⟨?_, fun h => absurd h hv, fun kp ki kd => ?_⟩
    · rw [run, if_neg hv]
      unfold validConfig at hv
      push_neg at hv
      constructor
      · intro _
        by_cases ht : 0 < c.Ts
        · by_cases htau : 0 < c.tau
          · exact Or.inr (Or.inr (hv ht htau))
          · exact Or.inr (Or.inl (le_of_not_lt htau))
        · exact Or.inl (le_of_not_lt ht)
      · intro _; rfl
    · have hg : ¬ validConfig { c with Kp := kp, Ki := ki, Kd := kd } := hv
      rw [run, if_neg hg, run, if_neg hv]

/-- Witness for C3: on the valid configuration cNB, run succeeds with the
full result. -/
theorem run_validation_witness :
    validConfig cNB ∧ run cNB = Except.ok (mkResult cNB) :=
  ⟨by decide, (run_validation cNB).2.1 (by decide)⟩

/-- Claim C4: for every valid configuration, each of the six output
trajectories has length n+1, and the time base has length n with
t_i = i*Ts for i = 0..n-1. -/
theorem trajectory_lengths (c : SimulationConfig) (h : validConfig c) :
    ∃ res, run c = Except.ok res
      ∧ res.y_open.length = c.n + 1 ∧ res.y.length = c.n + 1
      ∧ res.m.length = c.n + 1 ∧ res.e.length = c.n + 1
      ∧ res.int_e.length = c.n + 1 ∧ res.diff_e.length = c.n + 1
      ∧ res.t.length = c.n
      ∧ ∀ i, i < c.n → res.t[i]? = some ((i : ℚ) * c.Ts) := by
  refine ⟨mkResult c, by rw [run, if_pos h], ?_, ?_, ?_, ?_, ?_, ?_, ?_, ?_⟩
  all_goals simp only [mkResult, List.length_map, List.length_range]
  intro i hi
  simp only [List.getElem?_map, List.getElem?_range hi, Option.map_some']

/-- Witness for C4 at the concrete configuration cNB. -/
theorem trajectory_lengths_witness :
    validConfig cNB
      ∧ ∃ res, run cNB = Except.ok res
          ∧ res.y_open.length = cNB.n + 1 ∧ res.y.length = cNB.n + 1
          ∧ res.m.length = cNB.n + 1 ∧ res.e.length = cNB.n + 1
          ∧ res.int_e.length = cNB.n + 1 ∧ res.diff_e.length = cNB.n + 1
          ∧ res.t.length = cNB.n
          ∧ ∀ i, i < cNB.n → res.t[i]? = some ((i : ℚ) * cNB.Ts) :=
  ⟨by decide, trajectory_lengths cNB (by decide)⟩

/-- Claim C5: for every valid configuration, index 0 of every computed
trajectory is the zero initial condition, while the setpoint trajectory
holds its constant value r at index 0 (nonzero whenever r is). -/
theorem initial_conditions (c : SimulationConfig) (h : validConfig c) :
    (state c 0).y_open = 0 ∧ (state c 0).y = 0 ∧ (state c 0).e = 0
      ∧ (state c 0).int_e = 0 ∧ (state c 0).diff_e = 0 ∧ (state c 0).m_cont = 0
      ∧ setpoint c 0 = c.r ∧ (c.r ≠ 0 → setpoint c 0 ≠ 0) :=
  ⟨rfl, rfl, rfl, rfl, rfl, rfl, rfl, fun h0 => h0⟩

/-- Witness for C5 at the concrete configuration cNB (whose setpoint 2 is
nonzero). -/
theorem initial_conditions_witness :
    validConfig cNB
      ∧ ((state cNB 0).y_open = 0 ∧ (state cNB 0).y = 0 ∧ (state cNB 0).e = 0
          ∧ (state cNB 0).int_e = 0 ∧ (state cNB 0).diff_e = 0
          ∧ (state cNB 0).m_cont = 0
          ∧ setpoint cNB 0 = cNB.r ∧ (cNB.r ≠ 0 → setpoint cNB 0 ≠ 0)) :=
  ⟨by decide, initial_conditions cNB (by decide)⟩

/-- Claim C6: run is deterministic and pure — two calls with identical
inputs produce identical results; run is a function of its configuration
alone, with no other state. -/
theorem run_deterministic (c1 c2 : SimulationConfig) (h : c1 = c2) :
    run c1 = run c2 := by rw [h]

/-- Witness for C6: two calls of run at the identical configuration cNB. -/
theorem run_deterministic_witness : cNB = cNB ∧ run cNB = run cNB :=
  ⟨rfl, run_deterministic cNB cNB rfl⟩

/-- Claim C7: causality of the recurrence — two runs over the same plant
and controller constants whose input and setpoint trajectories agree on
every value read before producing index k (inputs at indices i with
i+1 < k, setpoints at indices below k) have identical trajectory values
at every index strictly below k. -/
theorem causality (c : SimulationConfig) (u1 rsp1 u2 rsp2 : ℕ → ℚ) (k : ℕ)
    (hu : ∀ i, i + 1 < k → u1 i = u2 i)
    (hr : ∀ i, i < k → rsp1 i = rsp2 i) :
    ∀ j, j < k → stateGen c u1 rsp1 j = stateGen c u2 rsp2 j := by
  intro j
  induction j with
  | zero => intro _; rfl
  | succ m ih =>
      intro hj
      show step c (u1 m) (rsp1 (m + 1)) (stateGen c u1 rsp1 m)
          = step c (u2 m) (rsp2 (m + 1)) (stateGen c u2 rsp2 m)
      rw [hu m hj, hr (m + 1) hj, ih (Nat.lt_of_succ_lt hj)]

/-- Witness for C7: inputs that differ only from index 1 on and setpoints
that differ only from index 2 on leave the value at index 1 unchanged. -/
theorem causality_witness :
    (∀ i, i + 1 < 2 → (fun _ : ℕ => (1 : ℚ)) i
        = (fun j : ℕ => if j = 0 then (1 : ℚ) else 7) i)
      ∧ (∀ i, i < 2 → (fun _ : ℕ => (2 : ℚ)) i
          = (fun j : ℕ => if j < 2 then (2 : ℚ) else 9) i)
      ∧ stateGen cNB (fun _ => 1) (fun _ => 2) 1
        = stateGen cNB (fun j => if j = 0 then 1 else 7)
            (fun j => if j < 2 then 2 else 9) 1 := by
  have hu : ∀ i, i + 1 < 2 → (fun _ : ℕ => (1 : ℚ)) i
      = (fun j : ℕ => if j = 0 then (1 : ℚ) else 7) i := by
    intro i hi
    have : i = 0 := by omega
    simp [this]
  have hr : ∀ i, i < 2 → (fun _ : ℕ => (2 : ℚ)) i
      = (fun j : ℕ => if j < 2 then (2 : ℚ) else 9) i := by
    intro i hi
    simp [hi]
  exact ⟨hu, hr,
    causality cNB (fun _ => 1) (fun _ => 2)
      (fun j => if j = 0 then 1 else 7) (fun j => if j < 2 then 2 else 9) 2
      hu hr 1 (by omega)⟩

/-- Closed form of the open-loop recurrence under unit forcing input:
each step multiplies the distance to the fixed point 1 by (1 - Ts/tau). -/
lemma y_open_closed_form (c : SimulationConfig) (hu : c.u0 = 1) (k : ℕ) :
    (state c k).y_open = 1 - (1 - c.Ts / c.tau) ^ k := by
  induction k with
  | zero =>
      show (0 : ℚ) = 1 - (1 - c.Ts / c.tau) ^ 0
      norm_num
  | succ m ih =>
      show (1 - c.Ts / c.tau) * (state c m).y_open + (c.Ts / c.tau) * c.u0
          = 1 - (1 - c.Ts / c.tau) ^ (m + 1)
      rw [ih, hu]
      ring

/-- The divergence scenario of the spec: Ts=3, tau=1 (coefficient -2),
unit open-loop input; n, gains and setpoint as in the notebook. -/
def cDiv : SimulationConfig := ⟨3, 1, 8, 5, 5, 1, 2, 1⟩

/-- Claim C8: with Ts ≥ tau the simulator still completes on every valid
configuration; for Ts=3, tau=1 with unit input the open-loop trajectory is
y_open[k] = 1 - (-2)^k, positive at odd and negative at even positive
indices, with strictly growing magnitude from index 2 on. -/
theorem divergence_tolerated :
    (∀ c : SimulationConfig, validConfig c → ∃ res, run c = Except.ok res)
      ∧ (∀ k, (state cDiv k).y_open = 1 - (-2 : ℚ) ^ k)
      ∧ (∀ k, 0 < (state cDiv (2 * k + 1)).y_open)
      ∧ (∀ k, (state cDiv (2 * k + 2)).y_open < 0)
      ∧ (∀ k, 2 ≤ k →
          |(state cDiv k).y_open| < |(state cDiv (k + 1)).y_open|) := by
  have hcoef : (1 : ℚ) - cDiv.Ts / cDiv.tau = -2 := by norm_num [cDiv]
  have hcf : ∀ k, (state cDiv k).y_open = 1 - (-2 : ℚ) ^ k := by
    intro k
    rw [y_open_closed_form cDiv rfl k, hcoef]
  have habs : ∀ j : ℕ, |(-2 : ℚ) ^ j| = 2 ^ j := by
    intro j
    rw [abs_pow]
    norm_num
  refine ⟨fun c h => ⟨mkResult c, by rw [run, if_pos h]⟩, hcf, ?_, ?_, ?_⟩
  · intro k
    rw [hcf, Odd.neg_pow ⟨k, by ring⟩ 2]
    have h2 : (0 : ℚ) < 2 ^ (2 * k + 1) := pow_pos (by norm_num) _
    linarith
  · intro k
    rw [hcf, Even.neg_pow ⟨k + 1, by ring⟩ 2]
    have h2 : (1 : ℚ) < 2 ^ (2 * k + 2) := one_lt_pow₀ (by norm_num) (by omega)
    linarith
  · intro k hk
    rw [hcf k, hcf (k + 1)]
    have hupper : |1 - (-2 : ℚ) ^ k| ≤ 1 + 2 ^ k := by
      calc |1 - (-2 : ℚ) ^ k| ≤ |(1 : ℚ)| + |(-2 : ℚ) ^ k| := abs_sub 1 ((-2) ^ k)
        _ = 1 + 2 ^ k := by rw [habs k, abs_one]
    have hlower : (2 : ℚ) ^ (k + 1) - 1 ≤ |1 - (-2 : ℚ) ^ (k + 1)| := by
      calc (2 : ℚ) ^ (k + 1) - 1 = |(-2 : ℚ) ^ (k + 1)| - |(1 : ℚ)| := by
            rw [habs (k + 1), abs_one]
        _ ≤ |(-2 : ℚ) ^ (k + 1) - 1| := abs_sub_abs_le_abs_sub _ _
        _ = |1 - (-2 : ℚ) ^ (k + 1)| := abs_sub_comm _ _
    have h4 : (4 : ℚ) ≤ 2 ^ k := by
      calc (4 : ℚ) = 2 ^ 2 := by norm_num
        _ ≤ 2 ^ k := pow_le_pow_right₀ (by norm_num) hk
    have hdouble : (2 : ℚ) ^ (k + 1) = 2 * 2 ^ k := by ring
    linarith

/-- Witness for C8: the concrete divergence configuration is valid, run
completes on it, and the magnitude strictly grows from index 2 to 3. -/
theorem divergence_tolerated_witness :
    validConfig cDiv ∧ (∃ res, run cDiv = Except.ok res) ∧ 2 ≤ 2
      ∧ |(state cDiv 2).y_open| < |(state cDiv 3).y_open| :=
  ⟨by decide, divergence_tolerated.1 cDiv (by decide), by decide,
    divergence_tolerated.2.2.2.2 2 (by norm_num)⟩

/-- Claim C9: for 0 < Ts < tau with constant unit input and zero initial
condition, y_open[k] = 1 - (1 - Ts/tau)^k, and the trajectory approaches
the steady-state value 1 within any positive tolerance once enough steps
have elapsed. -/
theorem steady_state (c : SimulationConfig)
    (h1 : 0 < c.Ts) (h2 : c.Ts < c.tau) (hu : c.u0 = 1) :
    (∀ k, (state c k).y_open = 1 - (1 - c.Ts / c.tau) ^ k)
      ∧ ∀ ε : ℚ, 0 < ε → ∃ N, ∀ k, N ≤ k → |(state c k).y_open - 1| < ε := by
  have htau : 0 < c.tau := lt_trans h1 h2
  have ha0 : 0 < 1 - c.Ts / c.tau := by
    have hlt : c.Ts / c.tau < 1 := (div_lt_one htau).mpr h2
    linarith
  have ha1 : 1 - c.Ts / c.tau < 1 := by
    have hpos : 0 < c.Ts / c.tau := div_pos h1 htau
    linarith
  refine ⟨y_open_closed_form c hu, fun ε hε => ?_⟩
  obtain ⟨N, hN⟩ := exists_pow_lt_of_lt_one hε ha1
  refine ⟨N, fun k hk => ?_⟩
  rw [y_open_closed_form c hu k]
  have habs : |1 - (1 - c.Ts / c.tau) ^ k - 1| = (1 - c.Ts / c.tau) ^ k := by
    rw [show (1 : ℚ) - (1 - c.Ts / c.tau) ^ k - 1 = -((1 - c.Ts / c.tau) ^ k) by
          ring,
      abs_neg, abs_of_nonneg (pow_nonneg (le_of_lt ha0) k)]
  rw [habs]
  calc (1 - c.Ts / c.tau) ^ k ≤ (1 - c.Ts / c.tau) ^ N :=
        pow_le_pow_of_le_one (le_of_lt ha0) (le_of_lt ha1) hk
    _ < ε := hN

/-- Stable configuration used by the C9 witness: Ts=1, tau=2, unit input. -/
def cSS : SimulationConfig := ⟨1, 2, 4, 5, 5, 1, 2, 1⟩

/-- Witness for C9 at the concrete stable configuration cSS. -/
theorem steady_state_witness :
    (0 < cSS.Ts ∧ cSS.Ts < cSS.tau ∧ cSS.u0 = 1)
      ∧ ((∀ k, (state cSS k).y_open = 1 - (1 - cSS.Ts / cSS.tau) ^ k)
          ∧ ∀ ε : ℚ, 0 < ε → ∃ N, ∀ k, N ≤ k →
              |(state cSS k).y_open - 1| < ε) :=
  ⟨⟨by decide, by decide, rfl⟩, steady_state cSS (by decide) (by decide) rfl⟩

/-- Claim C10: the open-loop trajectory depends only on Ts, tau, n and the
constant forcing input; two valid runs differing only in the gains and/or
the setpoint have identical open-loop trajectories at every index. -/
theorem open_loop_noninterference (c1 c2 : SimulationConfig)
    (hv1 : validConfig c1) (hv2 : validConfig c2)
    (hTs : c1.Ts = c2.Ts) (htau : c1.tau = c2.tau) (hn : c1.n = c2.n)
    (hu : c1.u0 = c2.u0) :
    (∀ i, (state c1 i).y_open = (state c2 i).y_open)
      ∧ (mkResult c1).y_open = (mkResult c2).y_open := by
  have key : ∀ i, (state c1 i).y_open = (state c2 i).y_open := by
    intro i
    induction i with
    | zero => rfl
    | succ m ih =>
        show (1 - c1.Ts / c1.tau) * (state c1 m).y_open + (c1.Ts / c1.tau) * c1.u0
            = (1 - c2.Ts / c2.tau) * (state c2 m).y_open + (c2.Ts / c2.tau) * c2.u0
        rw [hTs, htau, hu, ih]
  refine ⟨key, ?_⟩
  show (List.range (c1.n + 1)).map (fun i => (state c1 i).y_open)
      = (List.range (c2.n + 1)).map (fun i => (state c2 i).y_open)
  rw [hn]
  exact List.map_congr_left fun i _ => key i

/-- Configurations for the C10 witness: same plant, n and input as cNB but
different gains and setpoint. -/
def cAlt : SimulationConfig := ⟨1, 2, 4, 3, 0, 0, 7, 1⟩

/-- Witness for C10: cNB and cAlt differ only in gains and setpoint and
have the same open-loop trajectory. -/
theorem open_loop_noninterference_witness :
    (validConfig cNB ∧ validConfig cAlt ∧ cNB.Ts = cAlt.Ts
        ∧ cNB.tau = cAlt.tau ∧ cNB.n = cAlt.n ∧ cNB.u0 = cAlt.u0)
      ∧ ((∀ i, (state cNB i).y_open = (state cAlt i).y_open)
          ∧ (mkResult cNB).y_open = (mkResult cAlt).y_open) :=
  ⟨⟨by decide, by decide, rfl, rfl, rfl, rfl⟩,
    open_loop_noninterference cNB cAlt (by decide) (by decide) rfl rfl rfl rfl⟩

end PID
